import Mathlib

/-!
# Verification of the admin-panel logic (`src/admin.js`)

Shallow embedding of the browser-side admin control panel: authentication,
competition start/reset, status polling and the countdown display.

Modelling conventions:
* The mutable module state (auth flag, credential, competition state, timer
  handles) together with the DOM fields the script writes are collected in
  one `PanelState` structure; every handler is a pure function
  `PanelState → PanelState × List Request`, where the request list records
  the HTTP requests the handler issues, in order.
* Network responses are inputs: each `async` handler takes the outcome of
  its `await fetch(...)` as an explicit argument (`AuthOutcome` for the two
  auth checks, which never read the body; `HttpOutcome β` for body-reading
  calls, with `body = none` modelling a `response.json()` that throws).
* A nested `fetchStatus()` call that is fired without `await` runs its
  synchronous prefix (auth guard + issuing the GET) in the current task;
  this prefix is `fetchStatusIssue`.  Its continuation belongs to a later
  task with its own response, so it is not inlined.
* `setInterval`/`clearInterval` are modelled by a table of live `Timer`s
  with fresh increasing ids; an interval's callback first runs one period
  after creation (`Timer.firstFire`).
* Timestamps are integer epoch milliseconds (`new Date(x).getTime()` is the
  identity); JS truthiness on a nullable timestamp (`!endTime`) is
  `timeFalsy` (null and 0 are falsy).  All `Math.floor(a / b)` in the
  countdown occur with `a ≥ 0`, where Lean's `Int` division agrees.
* The locale-formatted date slots are modelled by the timestamp they render
  (`none` renders the dash); the 5-second auto-hide timeout of
  `showControlMessage` is presentational and elided.
-/

set_option autoImplicit false

namespace AdminJs

/-- The HTTP requests the panel can issue (CONFIG.API_BASE_URL endpoints). -/
inductive Request where
  | getStatus
  | postStart (durationDays : Int)
  | postReset
  deriving Repr, DecidableEq

/-- Outcome of a fetch whose response body is never read
(`handleLogin` / `verifyAuthentication` only look at `ok` and `status`). -/
inductive AuthOutcome where
  | netError
  | resp (status : Nat)
  deriving Repr, DecidableEq

/-- Outcome of a fetch whose body is parsed with `response.json()`:
`body = none` means the json parse throws. -/
inductive HttpOutcome (β : Type) where
  | netError
  | resp (status : Nat) (body : Option β)
  deriving Repr

/-- JS `response.ok`: status in the 2xx range. -/
def respOk (status : Nat) : Bool :=
  decide (200 ≤ status) && decide (status < 300)

/-- The `competition` object of a status response body; `remainingSeconds`
and `durationDays` may be absent (the script applies `|| 0`). -/
structure CompetitionData where
  isActive : Bool
  isEnded : Bool
  startTime : Option Int
  endTime : Option Int
  remainingSeconds : Option Int
  durationDays : Option Int
  deriving Repr, DecidableEq

/-- Body of a `GET /api/admin/status` 2xx response. -/
structure StatusBody where
  success : Bool
  competition : Option CompetitionData
  deriving Repr, DecidableEq

/-- Body of a `POST /api/admin/start` response. -/
structure StartBody where
  success : Bool
  message : String
  deriving Repr, DecidableEq

/-- Body of a `POST /api/admin/reset` response. -/
structure ResetBody where
  success : Bool
  message : String
  deriving Repr, DecidableEq

/-- The `competitionState` module variable. -/
structure CompetitionState where
  isActive : Bool
  isEnded : Bool
  startTime : Option Int
  endTime : Option Int
  remainingSeconds : Int
  durationDays : Int
  deriving Repr, DecidableEq

/-- Kinds of repeating timers the script creates. -/
inductive TimerKind where
  | countdown
  | statusRefresh
  deriving Repr, DecidableEq

/-- A live `setInterval` timer: id handle, which callback, period (ms) and
creation time. -/
structure Timer where
  id : Nat
  kind : TimerKind
  period : Int
  createdAt : Int
  deriving Repr, DecidableEq

/-- JS `setInterval` first runs its callback one full period after creation. -/
def Timer.firstFire (t : Timer) : Int :=
  t.createdAt + t.period

/-- Module state plus the DOM fields the script writes.

DOM text slots hold the strings assigned by the script; the two
locale-formatted date slots hold the rendered timestamp (`none` = dash). -/
structure PanelState where
  isAuthenticated : Bool
  adminApiKey : String
  /-- JS `sessionStorage.getItem('adminApiKey')` -/
  sessionKey : Option String
  competitionState : CompetitionState
  statusRefreshInterval : Option Nat
  countdownInterval : Option Nat
  /-- the browser's table of live intervals -/
  timers : List Timer
  nextTimerId : Nat
  loginHidden : Bool
  controlsHidden : Bool
  /-- JS `elements.adminPassword.value` -/
  passwordValue : String
  loginErrorText : String
  loginErrorShown : Bool
  statusValueText : String
  statusValueClasses : List String
  startTimeText : Option Int
  endTimeText : Option Int
  countdownText : String
  /-- whether `elements.countdown` has the `ending` class -/
  countdownEnding : Bool
  adminDays : String
  adminHours : String
  adminMinutes : String
  adminSeconds : String
  start7Disabled : Bool
  start14Disabled : Bool
  start30Disabled : Bool
  resetDisabled : Bool
  controlMessageText : String
  controlMessageClass : String
  deriving Repr, DecidableEq

/-- JS truthiness test on a nullable millisecond timestamp:
`null` and `0` are falsy, every other number is truthy. -/
def timeFalsy : Option Int → Bool
  | none => true
  | some t => t == 0

/-- JS `String.prototype.trim()`: strip leading and trailing whitespace
(modelled over the character list so that it evaluates by reduction). -/
def trimString (str : String) : String :=
  String.mk
    (((str.toList.dropWhile Char.isWhitespace).reverse.dropWhile Char.isWhitespace).reverse)

/-- JS `String(n).padStart(2, '0')`. -/
def padStart2 (str : String) : String :=
  if str.length ≥ 2 then str
  else String.mk (List.replicate (2 - str.length) '0') ++ str

/-- JS `setInterval(cb, period)`: register a fresh timer, return its handle. -/
def setIntervalTimer (k : TimerKind) (period : Int) (now : Int) (s : PanelState) :
    Nat × PanelState :=
  (s.nextTimerId,
   { s with
      timers := s.timers ++ [⟨s.nextTimerId, k, period, now⟩]
      nextTimerId := s.nextTimerId + 1 })

/-- JS `clearInterval(h)`: drop the timer with handle `h` from the live table. -/
def clearIntervalTimer (h : Nat) (s : PanelState) : PanelState :=
  { s with timers := s.timers.filter (fun t => t.id != h) }

/-- JS `stopCountdown()` -/
def stopCountdown (s : PanelState) : PanelState :=
  match s.countdownInterval with
  | some h => { clearIntervalTimer h s with countdownInterval := none }
  | none => s

/-- JS `stopStatusRefresh()` -/
def stopStatusRefresh (s : PanelState) : PanelState :=
  match s.statusRefreshInterval with
  | some h => { clearIntervalTimer h s with statusRefreshInterval := none }
  | none => s

/-- JS `showLoginSection()` -/
def showLoginSection (s : PanelState) : PanelState :=
  { s with loginHidden := false, controlsHidden := true }

/-- JS `showAdminControls()` -/
def showAdminControls (s : PanelState) : PanelState :=
  { s with loginHidden := true, controlsHidden := false, loginErrorShown := false }

/-- JS `showLoginError(message)` -/
def showLoginError (message : String) (s : PanelState) : PanelState :=
  { s with loginErrorText := message, loginErrorShown := true }

/-- JS `showControlMessage(message, type)`; the 5s auto-hide timeout is elided. -/
def showControlMessage (message ty : String) (s : PanelState) : PanelState :=
  { s with
      controlMessageText := message
      controlMessageClass := "message show " ++ ty }

/-- JS `handleLogout()` -/
def handleLogout (s : PanelState) : PanelState :=
  let s := { s with isAuthenticated := false, adminApiKey := "", sessionKey := none }
  let s := stopStatusRefresh s
  let s := stopCountdown s
  let s := showLoginSection s
  { s with passwordValue := "" }

/-- The synchronous prefix of a fire-and-forget `fetchStatus()` call:
the auth guard, then the GET is issued.  The continuation after the
`await` runs in a later task and is modelled by `fetchStatus` itself. -/
def fetchStatusIssue (s : PanelState) : List Request :=
  if s.isAuthenticated then [Request.getStatus] else []

/-- JS `updateButtonStates()` -/
def updateButtonStates (s : PanelState) : PanelState :=
  let isCompetitionActive := s.competitionState.isActive && !s.competitionState.isEnded
  { s with
      start7Disabled := isCompetitionActive
      start14Disabled := isCompetitionActive
      start30Disabled := isCompetitionActive
      resetDisabled := !s.competitionState.isActive && !s.competitionState.isEnded }

/-- JS `updateStatusDisplay()` -/
def updateStatusDisplay (s : PanelState) : PanelState :=
  let c := s.competitionState
  let s :=
    if c.isEnded then
      { s with statusValueText := "Ended", statusValueClasses := ["status-badge", "ended"] }
    else if c.isActive then
      let durationText :=
        if c.durationDays == 7 then " (7 Days)"
        else if c.durationDays == 14 then " (14 Days)"
        else if c.durationDays == 30 then " (30 Days)"
        else ""
      { s with
          statusValueText := "Active" ++ durationText
          statusValueClasses := ["status-badge", "active"] }
    else
      { s with statusValueText := "Inactive", statusValueClasses := ["status-badge", "inactive"] }
  let s :=
    if timeFalsy c.startTime then { s with startTimeText := none }
    else { s with startTimeText := c.startTime }
  if timeFalsy c.endTime then { s with endTimeText := none }
  else { s with endTimeText := c.endTime }

/-- JS `updateCountdown()`; `now` is `new Date().getTime()`.  In the
`distance ≥ 0` branch all division operands are non-negative, so Lean's
`Int` division coincides with JS `Math.floor` of the real quotient. -/
def updateCountdown (now : Int) (s : PanelState) : PanelState × List Request :=
  if !s.competitionState.isActive || timeFalsy s.competitionState.endTime then
    ({ s with countdownText := "—" }, [])
  else
    let endMs := s.competitionState.endTime.getD 0
    let distance := endMs - now
    if distance < 0 then
      let s := { s with
        adminDays := "00", adminHours := "00", adminMinutes := "00", adminSeconds := "00" }
      let s := stopCountdown s
      (s, fetchStatusIssue s)
    else
      let days := distance / (1000 * 60 * 60 * 24)
      let hours := distance % (1000 * 60 * 60 * 24) / (1000 * 60 * 60)
      let minutes := distance % (1000 * 60 * 60) / (1000 * 60)
      let seconds := distance % (1000 * 60) / 1000
      let s := { s with
        adminDays := padStart2 (toString days)
        adminHours := padStart2 (toString hours)
        adminMinutes := padStart2 (toString minutes)
        adminSeconds := padStart2 (toString seconds) }
      let s :=
        if days == 0 && decide (hours < 24) then { s with countdownEnding := true }
        else { s with countdownEnding := false }
      (s, [])

/-- JS `CONFIG.TIMER_UPDATE_INTERVAL` -/
def TIMER_UPDATE_INTERVAL : Int := 1000

/-- JS `CONFIG.STATUS_REFRESH_INTERVAL` -/
def STATUS_REFRESH_INTERVAL : Int := 30000

/-- JS `startCountdown()` -/
def startCountdown (now : Int) (s : PanelState) : PanelState × List Request :=
  let s1 := stopCountdown s
  let u := updateCountdown now s1
  let r := setIntervalTimer TimerKind.countdown TIMER_UPDATE_INTERVAL now u.1
  ({ r.2 with countdownInterval := some r.1 }, u.2)

/-- JS `startStatusRefresh()` -/
def startStatusRefresh (now : Int) (s : PanelState) : PanelState :=
  let s1 := stopStatusRefresh s
  let r := setIntervalTimer TimerKind.statusRefresh STATUS_REFRESH_INTERVAL now s1
  { r.2 with statusRefreshInterval := some r.1 }

/-- replacing `competitionState` wholesale from a status payload
(with the script's `|| 0` defaults). -/
def applyCompetition (c : CompetitionData) : CompetitionState :=
  { isActive := c.isActive
    isEnded := c.isEnded
    startTime := c.startTime
    endTime := c.endTime
    remainingSeconds := c.remainingSeconds.getD 0
    durationDays := c.durationDays.getD 0 }

/-- JS `fetchStatus()`: guard, issue the GET, then handle the response
`outcome`.  A non-ok non-401/403 status throws and is caught (log only);
a caught error leaves all state untouched. -/
def fetchStatus (now : Int) (s : PanelState) (outcome : HttpOutcome StatusBody) :
    PanelState × List Request :=
  if !s.isAuthenticated then (s, [])
  else
    let cont : PanelState × List Request :=
      match outcome with
      | .netError => (s, [])
      | .resp status body =>
        if !respOk status then
          if status == 401 || status == 403 then (handleLogout s, [])
          else (s, [])
        else
          match body with
          | none => (s, [])
          | some data =>
            match data.competition with
            | some c =>
              if data.success then
                let s := { s with competitionState := applyCompetition c }
                let s := updateStatusDisplay s
                let (s, reqs) :=
                  if s.competitionState.isActive && !s.competitionState.isEnded then
                    startCountdown now s
                  else
                    (stopCountdown s, [])
                (updateButtonStates s, reqs)
              else (s, [])
            | none => (s, [])
    (cont.1, Request.getStatus :: cont.2)

/-- JS `handleLogin(e)`: read and trim the password, set `adminApiKey`, issue
the auth-check GET and handle its `outcome`. -/
def handleLogin (now : Int) (s : PanelState) (outcome : AuthOutcome) :
    PanelState × List Request :=
  let password := trimString s.passwordValue
  if password = "" then (showLoginError "Please enter a password" s, [])
  else
    let s := { s with adminApiKey := password }
    match outcome with
    | .netError =>
      (showLoginError "Connection error. Is the backend running?" s, [Request.getStatus])
    | .resp status =>
      if respOk status then
        let s := { s with isAuthenticated := true, sessionKey := some s.adminApiKey }
        let s := showAdminControls s
        let reqs := fetchStatusIssue s
        let s := startStatusRefresh now s
        (s, Request.getStatus :: reqs)
      else if status == 401 || status == 403 then
        (showLoginError "Invalid admin password" s, [Request.getStatus])
      else
        (showLoginError "Authentication failed. Please try again." s, [Request.getStatus])

/-- JS `verifyAuthentication()`: auth-check with the stored key; any non-ok
response discards the stored key, a thrown fetch only logs. -/
def verifyAuthentication (now : Int) (s : PanelState) (outcome : AuthOutcome) :
    PanelState × List Request :=
  match outcome with
  | .netError => (s, [Request.getStatus])
  | .resp status =>
    if respOk status then
      let s := { s with isAuthenticated := true }
      let s := showAdminControls s
      let reqs := fetchStatusIssue s
      let s := startStatusRefresh now s
      (s, Request.getStatus :: reqs)
    else
      ({ s with sessionKey := none, adminApiKey := "" }, [Request.getStatus])

/-- the `durationText` ternary chain of `handleStartCompetition`. -/
def durationText (durationDays : Int) : String :=
  if durationDays == 7 then "1 week"
  else if durationDays == 14 then "2 weeks"
  else if durationDays == 30 then "1 month"
  else toString durationDays ++ " days"

/-- JS `handleStartCompetition(durationDays)`; `confirmed` is the result of
the blocking `confirm(...)` prompt, `outcome` the POST response. -/
def handleStartCompetition (s : PanelState) (durationDays : Int) (confirmed : Bool)
    (outcome : HttpOutcome StartBody) : PanelState × List Request :=
  if !s.isAuthenticated then (s, [])
  else if !confirmed then (s, [])
  else
    let s := { s with start7Disabled := true, start14Disabled := true, start30Disabled := true }
    let s := showControlMessage
      ("Starting " ++ durationText durationDays ++ " competition...") "info" s
    let failed := fun (s : PanelState) =>
      updateButtonStates
        (showControlMessage "❌ Failed to start competition. Check console." "error" s)
    match outcome with
    | .netError => (failed s, [Request.postStart durationDays])
    | .resp _status body =>
      match body with
      | none => (failed s, [Request.postStart durationDays])
      | some data =>
        if data.success then
          let s := showControlMessage
            ("✅ " ++ durationText durationDays ++ " competition started successfully!")
            "success" s
          (s, Request.postStart durationDays :: fetchStatusIssue s)
        else
          (updateButtonStates (showControlMessage ("❌ " ++ data.message) "error" s),
           [Request.postStart durationDays])

/-- the synchronous prefix of a confirmed reset: disable the reset button
and show the progress message (the state in effect for the whole duration
of the awaited call). -/
def handleResetDuring (s : PanelState) : PanelState :=
  showControlMessage "Resetting competition..." "info" { s with resetDisabled := true }

/-- JS `handleResetCompetition()`; `confirmed` is the `confirm(...)` result,
`outcome` the POST response.  The `finally` block re-enables the reset
button on every path. -/
def handleResetCompetition (s : PanelState) (confirmed : Bool)
    (outcome : HttpOutcome ResetBody) : PanelState × List Request :=
  if !s.isAuthenticated then (s, [])
  else if !confirmed then (s, [])
  else
    let s := handleResetDuring s
    let (s, reqs) :=
      match outcome with
      | .netError =>
        (showControlMessage "❌ Failed to reset competition. Check console." "error" s,
         ([] : List Request))
      | .resp _status body =>
        match body with
        | none =>
          (showControlMessage "❌ Failed to reset competition. Check console." "error" s, [])
        | some data =>
          if data.success then
            let s := showControlMessage "✅ Competition reset successfully!" "success" s
            (s, fetchStatusIssue s)
          else
            (showControlMessage ("❌ " ++ data.message) "error" s, [])
    ({ s with resetDisabled := false }, Request.postReset :: reqs)

/-- The initial module state (`init()` before any saved-key verification);
DOM slots start at the page's static content. -/
def initState : PanelState :=
  { isAuthenticated := false
    adminApiKey := ""
    sessionKey := none
    competitionState :=
      { isActive := false, isEnded := false, startTime := none, endTime := none
        remainingSeconds := 0, durationDays := 0 }
    statusRefreshInterval := none
    countdownInterval := none
    timers := []
    nextTimerId := 0
    loginHidden := false
    controlsHidden := true
    passwordValue := ""
    loginErrorText := ""
    loginErrorShown := false
    statusValueText := ""
    statusValueClasses := ["status-badge"]
    startTimeText := none
    endTimeText := none
    countdownText := ""
    countdownEnding := false
    adminDays := ""
    adminHours := ""
    adminMinutes := ""
    adminSeconds := ""
    start7Disabled := false
    start14Disabled := false
    start30Disabled := false
    resetDisabled := false
    controlMessageText := ""
    controlMessageClass := "" }

/-- The live timers of one kind. -/
def timersOfKind (k : TimerKind) (s : PanelState) : List Timer :=
  s.timers.filter (fun t => t.kind == k)

/-- A stored interval handle is always an id handed out earlier. -/
def optHandleLt : Option Nat → Nat → Prop
  | none, _ => True
  | some h, n => h < n

/-- A handle variable agrees with the timer table: a cleared handle means no
timer of that kind is live; a stored handle is live exactly at the timers of
that kind. -/
def handleKind : Option Nat → TimerKind → List Timer → Prop
  | none, k, ts => ∀ t ∈ ts, t.kind ≠ k
  | some h, k, ts => ∀ t ∈ ts, (t.kind = k ↔ t.id = h)

/-- Well-formedness of the timer subsystem, maintained by the script's
start/stop discipline: ids are distinct and bounded by the id counter, and
each handle variable agrees with the timer table. -/
def timerInv (s : PanelState) : Prop :=
  (s.timers.map Timer.id).Nodup
  ∧ (∀ t ∈ s.timers, t.id < s.nextTimerId)
  ∧ optHandleLt s.countdownInterval s.nextTimerId
  ∧ optHandleLt s.statusRefreshInterval s.nextTimerId
  ∧ handleKind s.countdownInterval TimerKind.countdown s.timers
  ∧ handleKind s.statusRefreshInterval TimerKind.statusRefresh s.timers

/-- A concrete logged-in state (used to instantiate the general theorems). -/
def loggedInState : PanelState :=
  { initState with isAuthenticated := true, adminApiKey := "k", sessionKey := some "k" }

/-- A concrete logged-out state holding a previously stored key. -/
def storedKeyState : PanelState :=
  { initState with adminApiKey := "k", sessionKey := some "k" }

/-- A concrete state with a password typed into the login form. -/
def loginAttemptState : PanelState :=
  { initState with passwordValue := "hunter2" }

/-- A concrete logged-in state with an active competition ending at
epoch-millisecond 3661000 (the spec's countdown scenario). -/
def activeState : PanelState :=
  { loggedInState with
      competitionState :=
        { isActive := true, isEnded := false, startTime := some 1000
          endTime := some 3661000, remainingSeconds := 3661, durationDays := 7 } }

/-- A concrete status payload reporting an inactive, ended competition. -/
def endedCompetition : CompetitionData :=
  { isActive := false, isEnded := true, startTime := some 1000
    endTime := some 3661000, remainingSeconds := some 0, durationDays := some 7 }

/-! ## Projection lemmas for the timer helpers -/

@[simp]
theorem stopCountdown_countdownInterval (s : PanelState) :
    (stopCountdown s).countdownInterval = none := by
  unfold stopCountdown
  cases h : s.countdownInterval <;> simp [h, clearIntervalTimer]

@[simp]
theorem stopCountdown_statusRefreshInterval (s : PanelState) :
    (stopCountdown s).statusRefreshInterval = s.statusRefreshInterval := by
  unfold stopCountdown
  cases h : s.countdownInterval <;> simp [clearIntervalTimer]

@[simp]
theorem stopCountdown_isAuthenticated (s : PanelState) :
    (stopCountdown s).isAuthenticated = s.isAuthenticated := by
  unfold stopCountdown
  cases h : s.countdownInterval <;> simp [clearIntervalTimer]

@[simp]
theorem stopCountdown_adminApiKey (s : PanelState) :
    (stopCountdown s).adminApiKey = s.adminApiKey := by
  unfold stopCountdown
  cases h : s.countdownInterval <;> simp [clearIntervalTimer]

@[simp]
theorem stopCountdown_sessionKey (s : PanelState) :
    (stopCountdown s).sessionKey = s.sessionKey := by
  unfold stopCountdown
  cases h : s.countdownInterval <;> simp [clearIntervalTimer]

@[simp]
theorem stopCountdown_competitionState (s : PanelState) :
    (stopCountdown s).competitionState = s.competitionState := by
  unfold stopCountdown
  cases h : s.countdownInterval <;> simp [clearIntervalTimer]

@[simp]
theorem stopCountdown_nextTimerId (s : PanelState) :
    (stopCountdown s).nextTimerId = s.nextTimerId := by
  unfold stopCountdown
  cases h : s.countdownInterval <;> simp [clearIntervalTimer]

@[simp]
theorem stopStatusRefresh_statusRefreshInterval (s : PanelState) :
    (stopStatusRefresh s).statusRefreshInterval = none := by
  unfold stopStatusRefresh
  cases h : s.statusRefreshInterval <;> simp [h, clearIntervalTimer]

@[simp]
theorem stopStatusRefresh_countdownInterval (s : PanelState) :
    (stopStatusRefresh s).countdownInterval = s.countdownInterval := by
  unfold stopStatusRefresh
  cases h : s.statusRefreshInterval <;> simp [clearIntervalTimer]

@[simp]
theorem stopStatusRefresh_isAuthenticated (s : PanelState) :
    (stopStatusRefresh s).isAuthenticated = s.isAuthenticated := by
  unfold stopStatusRefresh
  cases h : s.statusRefreshInterval <;> simp [clearIntervalTimer]

@[simp]
theorem stopStatusRefresh_adminApiKey (s : PanelState) :
    (stopStatusRefresh s).adminApiKey = s.adminApiKey := by
  unfold stopStatusRefresh
  cases h : s.statusRefreshInterval <;> simp [clearIntervalTimer]

@[simp]
theorem stopStatusRefresh_sessionKey (s : PanelState) :
    (stopStatusRefresh s).sessionKey = s.sessionKey := by
  unfold stopStatusRefresh
  cases h : s.statusRefreshInterval <;> simp [clearIntervalTimer]

@[simp]
theorem stopStatusRefresh_nextTimerId (s : PanelState) :
    (stopStatusRefresh s).nextTimerId = s.nextTimerId := by
  unfold stopStatusRefresh
  cases h : s.statusRefreshInterval <;> simp [clearIntervalTimer]

@[simp]
theorem stopCountdown_adminDays (s : PanelState) :
    (stopCountdown s).adminDays = s.adminDays := by
  unfold stopCountdown
  cases h : s.countdownInterval <;> simp [clearIntervalTimer]

@[simp]
theorem stopCountdown_adminHours (s : PanelState) :
    (stopCountdown s).adminHours = s.adminHours := by
  unfold stopCountdown
  cases h : s.countdownInterval <;> simp [clearIntervalTimer]

@[simp]
theorem stopCountdown_adminMinutes (s : PanelState) :
    (stopCountdown s).adminMinutes = s.adminMinutes := by
  unfold stopCountdown
  cases h : s.countdownInterval <;> simp [clearIntervalTimer]

@[simp]
theorem stopCountdown_adminSeconds (s : PanelState) :
    (stopCountdown s).adminSeconds = s.adminSeconds := by
  unfold stopCountdown
  cases h : s.countdownInterval <;> simp [clearIntervalTimer]

/-- After `stopCountdown`, no countdown timer is live (given that the
countdown handle agreed with the timer table). -/
theorem stopCountdown_no_countdown (s : PanelState)
    (hk : handleKind s.countdownInterval TimerKind.countdown s.timers) :
    ∀ t ∈ (stopCountdown s).timers, t.kind ≠ TimerKind.countdown := by
  unfold stopCountdown
  cases h : s.countdownInterval with
  | none =>
    rw [h] at hk
    exact hk
  | some hd =>
    rw [h] at hk
    intro t ht
    simp only [clearIntervalTimer, List.mem_filter, bne_iff_ne, ne_eq] at ht
    intro hkind
    exact ht.2 ((hk t ht.1).mp hkind)

/-- After `stopStatusRefresh`, no status-poll timer is live (given that the
poller handle agreed with the timer table). -/
theorem stopStatusRefresh_no_refresh (s : PanelState)
    (hk : handleKind s.statusRefreshInterval TimerKind.statusRefresh s.timers) :
    ∀ t ∈ (stopStatusRefresh s).timers, t.kind ≠ TimerKind.statusRefresh := by
  unfold stopStatusRefresh
  cases h : s.statusRefreshInterval with
  | none =>
    rw [h] at hk
    exact hk
  | some hd =>
    rw [h] at hk
    intro t ht
    simp only [clearIntervalTimer, List.mem_filter, bne_iff_ne, ne_eq] at ht
    intro hkind
    exact ht.2 ((hk t ht.1).mp hkind)

/-! ## Claim theorems -/

/-- C10: while `isAuthenticated` is false, `handleStartCompetition`,
`handleResetCompetition` and `fetchStatus` are no-ops: each returns the
state unchanged and issues no network request. -/
theorem C10_unauthenticated_noop (now : Int) (s : PanelState) (d : Int) (c : Bool)
    (so : HttpOutcome StartBody) (ro : HttpOutcome ResetBody)
    (fo : HttpOutcome StatusBody)
    (h : s.isAuthenticated = false) :
    handleStartCompetition s d c so = (s, [])
    ∧ handleResetCompetition s c ro = (s, [])
    ∧ fetchStatus now s fo = (s, []) := by
  refine ⟨?_, ?_, ?_⟩ <;> simp [handleStartCompetition, handleResetCompetition, fetchStatus, h]

/-- Witness for C10 at a concrete unauthenticated state. -/
theorem C10_unauthenticated_noop_witness :
    handleStartCompetition initState 7 true HttpOutcome.netError = (initState, [])
    ∧ handleResetCompetition initState true HttpOutcome.netError = (initState, [])
    ∧ fetchStatus 0 initState HttpOutcome.netError = (initState, []) :=
  C10_unauthenticated_noop 0 initState 7 true HttpOutcome.netError HttpOutcome.netError
    HttpOutcome.netError rfl

/-- C8: a confirmed reset disables the reset control for the duration of the
call (`handleResetDuring` is the state in effect while the POST is awaited)
and the `finally` block re-enables it after completion on every outcome:
success, `success:false`, and thrown exception alike. -/
theorem C8_reset_button_cleanup (s : PanelState) (outcome : HttpOutcome ResetBody)
    (hauth : s.isAuthenticated = true) :
    (handleResetDuring s).resetDisabled = true
    ∧ (handleResetCompetition s true outcome).1.resetDisabled = false := by
  constructor
  · simp [handleResetDuring, showControlMessage]
  · cases outcome with
    | netError => simp [handleResetCompetition, hauth, handleResetDuring, showControlMessage]
    | resp status body =>
      cases body with
      | none => simp [handleResetCompetition, hauth, handleResetDuring, showControlMessage]
      | some data =>
        by_cases hs : data.success
            <;> simp [handleResetCompetition, hauth, handleResetDuring, showControlMessage, hs]

/-- Witness for C8 at a concrete logged-in state and a thrown exception. -/
theorem C8_reset_button_cleanup_witness :
    (handleResetDuring loggedInState).resetDisabled = true
    ∧ (handleResetCompetition loggedInState true HttpOutcome.netError).1.resetDisabled = false :=
  C8_reset_button_cleanup loggedInState HttpOutcome.netError rfl

/-- C2: on a countdown tick with the competition active, a known (truthy)
end time, and distance `D = endTime - now ≥ 0`, each displayed field is the
decimal value zero-padded to width 2, and
`days*86400 + hours*3600 + minutes*60 + seconds = ⌊D/1000⌋`. -/
theorem C2_countdown_decomposition (now endMs : Int) (s : PanelState)
    (hact : s.competitionState.isActive = true)
    (hend : s.competitionState.endTime = some endMs)
    (hnz : endMs ≠ 0)
    (hD : 0 ≤ endMs - now) :
    (updateCountdown now s).1.adminDays = padStart2 (toString ((endMs - now) / 86400000))
    ∧ (updateCountdown now s).1.adminHours
        = padStart2 (toString ((endMs - now) % 86400000 / 3600000))
    ∧ (updateCountdown now s).1.adminMinutes
        = padStart2 (toString ((endMs - now) % 3600000 / 60000))
    ∧ (updateCountdown now s).1.adminSeconds
        = padStart2 (toString ((endMs - now) % 60000 / 1000))
    ∧ (endMs - now) / 86400000 * 86400 + (endMs - now) % 86400000 / 3600000 * 3600
        + (endMs - now) % 3600000 / 60000 * 60 + (endMs - now) % 60000 / 1000
        = (endMs - now) / 1000 := by
  have hfal : timeFalsy (some endMs) = false := by
    simp [timeFalsy, hnz]
  have hnl : ¬ endMs - now < 0 := not_lt.mpr hD
  refine ⟨?_, ?_, ?_, ?_, ?_⟩ <;>
    first
      | (unfold updateCountdown
         simp only [hact, hend, hfal, Bool.not_true, Bool.false_or, Bool.false_eq_true,
           if_false, Option.getD_some]
         norm_num [hnl]
         split <;> simp)
      | omega

/-- Witness for C2: the spec's scenario, 3661000 ms remaining renders
`00:01:01:01`. -/
theorem C2_countdown_decomposition_witness :
    (updateCountdown 0 activeState).1.adminDays
        = padStart2 (toString (((3661000 : Int) - 0) / 86400000))
    ∧ (updateCountdown 0 activeState).1.adminHours
        = padStart2 (toString (((3661000 : Int) - 0) % 86400000 / 3600000))
    ∧ (updateCountdown 0 activeState).1.adminMinutes
        = padStart2 (toString (((3661000 : Int) - 0) % 3600000 / 60000))
    ∧ (updateCountdown 0 activeState).1.adminSeconds
        = padStart2 (toString (((3661000 : Int) - 0) % 60000 / 1000))
    ∧ ((3661000 : Int) - 0) / 86400000 * 86400
        + ((3661000 : Int) - 0) % 86400000 / 3600000 * 3600
        + ((3661000 : Int) - 0) % 3600000 / 60000 * 60 + ((3661000 : Int) - 0) % 60000 / 1000
        = ((3661000 : Int) - 0) / 1000 :=
  C2_countdown_decomposition 0 3661000 activeState rfl rfl (by decide) (by decide)

/-- C4: on a countdown tick with the competition active, a known (truthy)
end time and `endTime - now < 0`, the four fields are set to
`"00","00","00","00"`, the countdown timer is stopped (handle cleared; no
countdown timer remains live, so no further tick can fire and re-trigger),
and exactly one status refetch is issued by the crossing tick. -/
theorem C4_countdown_expired (now endMs : Int) (s : PanelState)
    (hauth : s.isAuthenticated = true)
    (hact : s.competitionState.isActive = true)
    (hend : s.competitionState.endTime = some endMs)
    (hnz : endMs ≠ 0)
    (hneg : endMs - now < 0) :
    (updateCountdown now s).1.adminDays = "00"
    ∧ (updateCountdown now s).1.adminHours = "00"
    ∧ (updateCountdown now s).1.adminMinutes = "00"
    ∧ (updateCountdown now s).1.adminSeconds = "00"
    ∧ (updateCountdown now s).1.countdownInterval = none
    ∧ (handleKind s.countdownInterval TimerKind.countdown s.timers →
        timersOfKind TimerKind.countdown (updateCountdown now s).1 = [])
    ∧ (updateCountdown now s).2 = [Request.getStatus] := by
  have hfal : timeFalsy (some endMs) = false := by simp [timeFalsy, hnz]
  unfold updateCountdown
  simp only [hact, hend, hfal, Bool.not_true, Bool.false_or, Bool.false_eq_true, if_false,
    Option.getD_some, if_pos hneg]
  refine ⟨by simp, by simp, by simp, by simp, by simp, ?_, by simp [fetchStatusIssue, hauth]⟩
  intro hk
  refine List.filter_eq_nil_iff.mpr ?_
  intro t ht
  have hnc := stopCountdown_no_countdown
    { s with adminDays := "00", adminHours := "00", adminMinutes := "00", adminSeconds := "00" }
    hk t ht
  simpa using hnc

/-- Witness for C4: the countdown scenario state observed 339 seconds after
its end time. -/
theorem C4_countdown_expired_witness :
    (updateCountdown 4000000 activeState).1.adminDays = "00"
    ∧ (updateCountdown 4000000 activeState).1.adminHours = "00"
    ∧ (updateCountdown 4000000 activeState).1.adminMinutes = "00"
    ∧ (updateCountdown 4000000 activeState).1.adminSeconds = "00"
    ∧ (updateCountdown 4000000 activeState).1.countdownInterval = none
    ∧ (handleKind activeState.countdownInterval TimerKind.countdown activeState.timers →
        timersOfKind TimerKind.countdown (updateCountdown 4000000 activeState).1 = [])
    ∧ (updateCountdown 4000000 activeState).2 = [Request.getStatus] :=
  C4_countdown_expired 4000000 3661000 activeState rfl rfl rfl (by decide) (by decide)

/-- C1 counterexample: the claim says a 401 response to the start (or reset)
call while `LoggedIn` transitions the panel to `LoggedOut`; but
`handleStartCompetition` never inspects the HTTP status, so after a 401
response (body `success:false`) the panel is still logged in and both the
`adminApiKey` variable and `sessionStorage` still hold the credential. -/
theorem C1_counterexample :
    (handleStartCompetition loggedInState 7 true
        (HttpOutcome.resp 401 (some { success := false, message := "Unauthorized" }))).1.isAuthenticated
      = true
    ∧ (handleStartCompetition loggedInState 7 true
        (HttpOutcome.resp 401 (some { success := false, message := "Unauthorized" }))).1.adminApiKey
      = "k"
    ∧ (handleStartCompetition loggedInState 7 true
        (HttpOutcome.resp 401 (some { success := false, message := "Unauthorized" }))).1.sessionKey
      = some "k" := by
  refine ⟨rfl, rfl, rfl⟩

/-- C1 (amended): a 401/403 response to the authenticated **status fetch**
transitions the panel to `LoggedOut` — `isAuthenticated` false, credential
cleared from the variable and from sessionStorage, both timer handles
cleared; the start and reset handlers, however, never inspect the HTTP
status: a 401/403 response there leaves the panel logged in with the
credential intact. -/
theorem C1_status_fetch_logout (now : Int) (s : PanelState) (status : Nat)
    (body : Option StatusBody) (d : Int) (sb : StartBody) (rb : ResetBody)
    (hauth : s.isAuthenticated = true)
    (hst : status = 401 ∨ status = 403) :
    (fetchStatus now s (.resp status body)).1.isAuthenticated = false
    ∧ (fetchStatus now s (.resp status body)).1.adminApiKey = ""
    ∧ (fetchStatus now s (.resp status body)).1.sessionKey = none
    ∧ (fetchStatus now s (.resp status body)).1.countdownInterval = none
    ∧ (fetchStatus now s (.resp status body)).1.statusRefreshInterval = none
    ∧ (handleStartCompetition s d true (.resp status (some sb))).1.isAuthenticated = true
    ∧ (handleStartCompetition s d true (.resp status (some sb))).1.adminApiKey = s.adminApiKey
    ∧ (handleStartCompetition s d true (.resp status (some sb))).1.sessionKey = s.sessionKey
    ∧ (handleResetCompetition s true (.resp status (some rb))).1.isAuthenticated = true
    ∧ (handleResetCompetition s true (.resp status (some rb))).1.adminApiKey = s.adminApiKey
    ∧ (handleResetCompetition s true (.resp status (some rb))).1.sessionKey = s.sessionKey := by
  have hok : respOk status = false := by
    rcases hst with h | h <;> simp [respOk, h]
  have h43 : (status == 401 || status == 403) = true := by
    rcases hst with h | h <;> simp [h]
  refine ⟨?_, ?_, ?_, ?_, ?_, ?_, ?_, ?_, ?_, ?_, ?_⟩ <;>
    first
      | simp [fetchStatus, hauth, hok, h43, handleLogout, showLoginSection]
      | (by_cases hs : sb.success <;>
          simp [handleStartCompetition, hauth, showControlMessage, updateButtonStates,
            durationText, fetchStatusIssue, hs])
      | (by_cases hr : rb.success <;>
          simp [handleResetCompetition, hauth, handleResetDuring, showControlMessage,
            fetchStatusIssue, hr])

/-- Witness for C1 (amended) at a concrete logged-in state and status 401. -/
theorem C1_status_fetch_logout_witness :
    (fetchStatus 0 loggedInState (.resp 401 none)).1.isAuthenticated = false
    ∧ (fetchStatus 0 loggedInState (.resp 401 none)).1.adminApiKey = ""
    ∧ (fetchStatus 0 loggedInState (.resp 401 none)).1.sessionKey = none
    ∧ (fetchStatus 0 loggedInState (.resp 401 none)).1.countdownInterval = none
    ∧ (fetchStatus 0 loggedInState (.resp 401 none)).1.statusRefreshInterval = none
    ∧ (handleStartCompetition loggedInState 7 true
        (.resp 401 (some { success := false, message := "Unauthorized" }))).1.isAuthenticated = true
    ∧ (handleStartCompetition loggedInState 7 true
        (.resp 401 (some { success := false, message := "Unauthorized" }))).1.adminApiKey
      = loggedInState.adminApiKey
    ∧ (handleStartCompetition loggedInState 7 true
        (.resp 401 (some { success := false, message := "Unauthorized" }))).1.sessionKey
      = loggedInState.sessionKey
    ∧ (handleResetCompetition loggedInState true
        (.resp 401 (some { success := false, message := "Unauthorized" }))).1.isAuthenticated = true
    ∧ (handleResetCompetition loggedInState true
        (.resp 401 (some { success := false, message := "Unauthorized" }))).1.adminApiKey
      = loggedInState.adminApiKey
    ∧ (handleResetCompetition loggedInState true
        (.resp 401 (some { success := false, message := "Unauthorized" }))).1.sessionKey
      = loggedInState.sessionKey :=
  C1_status_fetch_logout 0 loggedInState 401 none 7
    { success := false, message := "Unauthorized" }
    { success := false, message := "Unauthorized" } rfl (Or.inl rfl)

/-- C5 counterexample: the claim says a non-401/403 failure of the stored-key
auth check is indeterminate and the stored credential is kept; but
`verifyAuthentication` discards the stored key on **any** non-ok response —
here a 500 clears both sessionStorage and the variable. -/
theorem C5_counterexample :
    (verifyAuthentication 0 storedKeyState (.resp 500)).1.sessionKey = none
    ∧ (verifyAuthentication 0 storedKeyState (.resp 500)).1.adminApiKey = "" := by
  refine ⟨rfl, rfl⟩

/-- C5 (amended): the stored-key auth check treats a 2xx response as a valid
credential (panel logs in); **every** non-2xx HTTP response — 401/403 and
any other status alike — as invalid, discarding the stored credential; only
a thrown network error is indeterminate and leaves all state (including the
stored credential) untouched. -/
theorem C5_auth_check_classification (now : Int) (s : PanelState) (status : Nat) :
    (respOk status = true →
        (verifyAuthentication now s (.resp status)).1.isAuthenticated = true)
    ∧ (respOk status = false →
        (verifyAuthentication now s (.resp status)).1.sessionKey = none
        ∧ (verifyAuthentication now s (.resp status)).1.adminApiKey = ""
        ∧ (verifyAuthentication now s (.resp status)).1.isAuthenticated = s.isAuthenticated)
    ∧ (verifyAuthentication now s .netError).1 = s := by
  refine ⟨?_, ?_, ?_⟩
  · intro hok
    simp [verifyAuthentication, hok, startStatusRefresh, setIntervalTimer, showAdminControls]
  · intro hok
    simp [verifyAuthentication, hok]
  · simp [verifyAuthentication]

/-- Witness for C5 (amended) at the stored-key state with statuses 200 and
500. -/
theorem C5_auth_check_classification_witness :
    (verifyAuthentication 0 storedKeyState (.resp 200)).1.isAuthenticated = true
    ∧ ((verifyAuthentication 0 storedKeyState (.resp 500)).1.sessionKey = none
        ∧ (verifyAuthentication 0 storedKeyState (.resp 500)).1.adminApiKey = ""
        ∧ (verifyAuthentication 0 storedKeyState (.resp 500)).1.isAuthenticated
          = storedKeyState.isAuthenticated)
    ∧ (verifyAuthentication 0 storedKeyState .netError).1 = storedKeyState :=
  ⟨(C5_auth_check_classification 0 storedKeyState 200).1 (by decide),
   (C5_auth_check_classification 0 storedKeyState 500).2.1 (by decide),
   (C5_auth_check_classification 0 storedKeyState 500).2.2⟩

/-- C6 counterexample: the claim says a network error during login leaves no
credential in memory; but `handleLogin` assigns `adminApiKey = password`
before the fetch and the catch block never clears it — after the error the
entered password is still in the `adminApiKey` variable. -/
theorem C6_counterexample :
    (handleLogin 0 loginAttemptState .netError).1.adminApiKey = "hunter2" := by
  rfl

/-- C6 (amended): on a network error during a login attempt the panel stays
`LoggedOut` (`isAuthenticated` remains false), the connection-error message
is shown, and the entered credential is not persisted to sessionStorage —
but it is **retained** in the `adminApiKey` variable, not discarded. -/
theorem C6_login_network_error (now : Int) (s : PanelState)
    (hauth : s.isAuthenticated = false)
    (hpw : ¬ trimString s.passwordValue = "") :
    (handleLogin now s .netError).1.isAuthenticated = false
    ∧ (handleLogin now s .netError).1.sessionKey = s.sessionKey
    ∧ (handleLogin now s .netError).1.adminApiKey = trimString s.passwordValue
    ∧ (handleLogin now s .netError).1.loginErrorText
        = "Connection error. Is the backend running?"
    ∧ (handleLogin now s .netError).1.loginErrorShown = true
    ∧ (handleLogin now s .netError).2 = [Request.getStatus] := by
  simp [handleLogin, hpw, showLoginError, hauth]

/-- Witness for C6 (amended) at the concrete login attempt. -/
theorem C6_login_network_error_witness :
    (handleLogin 0 loginAttemptState .netError).1.isAuthenticated = false
    ∧ (handleLogin 0 loginAttemptState .netError).1.sessionKey = loginAttemptState.sessionKey
    ∧ (handleLogin 0 loginAttemptState .netError).1.adminApiKey
        = trimString loginAttemptState.passwordValue
    ∧ (handleLogin 0 loginAttemptState .netError).1.loginErrorText
        = "Connection error. Is the backend running?"
    ∧ (handleLogin 0 loginAttemptState .netError).1.loginErrorShown = true
    ∧ (handleLogin 0 loginAttemptState .netError).2 = [Request.getStatus] :=
  C6_login_network_error 0 loginAttemptState rfl (by decide)

/-! ## Preservation lemmas for the status-update pipeline -/

@[simp]
theorem stopCountdown_start7Disabled (s : PanelState) :
    (stopCountdown s).start7Disabled = s.start7Disabled := by
  unfold stopCountdown
  cases h : s.countdownInterval <;> simp [clearIntervalTimer]

@[simp]
theorem stopCountdown_start14Disabled (s : PanelState) :
    (stopCountdown s).start14Disabled = s.start14Disabled := by
  unfold stopCountdown
  cases h : s.countdownInterval <;> simp [clearIntervalTimer]

@[simp]
theorem stopCountdown_start30Disabled (s : PanelState) :
    (stopCountdown s).start30Disabled = s.start30Disabled := by
  unfold stopCountdown
  cases h : s.countdownInterval <;> simp [clearIntervalTimer]

@[simp]
theorem stopCountdown_resetDisabled (s : PanelState) :
    (stopCountdown s).resetDisabled = s.resetDisabled := by
  unfold stopCountdown
  cases h : s.countdownInterval <;> simp [clearIntervalTimer]

@[simp]
theorem updateCountdown_competitionState (now : Int) (s : PanelState) :
    ((updateCountdown now s).1).competitionState = s.competitionState := by
  unfold updateCountdown
  dsimp only
  split
  · rfl
  · split
    · simp
    · split <;> rfl

@[simp]
theorem updateCountdown_start7Disabled (now : Int) (s : PanelState) :
    ((updateCountdown now s).1).start7Disabled = s.start7Disabled := by
  unfold updateCountdown
  dsimp only
  split
  · rfl
  · split
    · simp
    · split <;> rfl

@[simp]
theorem updateCountdown_start14Disabled (now : Int) (s : PanelState) :
    ((updateCountdown now s).1).start14Disabled = s.start14Disabled := by
  unfold updateCountdown
  dsimp only
  split
  · rfl
  · split
    · simp
    · split <;> rfl

@[simp]
theorem updateCountdown_start30Disabled (now : Int) (s : PanelState) :
    ((updateCountdown now s).1).start30Disabled = s.start30Disabled := by
  unfold updateCountdown
  dsimp only
  split
  · rfl
  · split
    · simp
    · split <;> rfl

@[simp]
theorem updateCountdown_resetDisabled (now : Int) (s : PanelState) :
    ((updateCountdown now s).1).resetDisabled = s.resetDisabled := by
  unfold updateCountdown
  dsimp only
  split
  · rfl
  · split
    · simp
    · split <;> rfl

@[simp]
theorem startCountdown_competitionState (now : Int) (s : PanelState) :
    ((startCountdown now s).1).competitionState = s.competitionState := by
  simp [startCountdown, setIntervalTimer]

@[simp]
theorem startCountdown_start7Disabled (now : Int) (s : PanelState) :
    ((startCountdown now s).1).start7Disabled = s.start7Disabled := by
  simp [startCountdown, setIntervalTimer]

@[simp]
theorem startCountdown_start14Disabled (now : Int) (s : PanelState) :
    ((startCountdown now s).1).start14Disabled = s.start14Disabled := by
  simp [startCountdown, setIntervalTimer]

@[simp]
theorem startCountdown_start30Disabled (now : Int) (s : PanelState) :
    ((startCountdown now s).1).start30Disabled = s.start30Disabled := by
  simp [startCountdown, setIntervalTimer]

@[simp]
theorem startCountdown_resetDisabled (now : Int) (s : PanelState) :
    ((startCountdown now s).1).resetDisabled = s.resetDisabled := by
  simp [startCountdown, setIntervalTimer]

@[simp]
theorem updateStatusDisplay_competitionState (s : PanelState) :
    (updateStatusDisplay s).competitionState = s.competitionState := by
  unfold updateStatusDisplay
  dsimp only
  repeat' split
  all_goals rfl

/-- C3: after a status update that applies a new `CompetitionState`, the
three start buttons are disabled iff `isActive && !isEnded` of that state,
and the reset button is disabled iff `!isActive && !isEnded` of it. -/
theorem C3_button_state_invariant (now : Int) (s : PanelState) (status : Nat)
    (data : StatusBody) (c : CompetitionData)
    (hauth : s.isAuthenticated = true)
    (hok : respOk status = true)
    (hsucc : data.success = true)
    (hcomp : data.competition = some c) :
    (fetchStatus now s (.resp status (some data))).1.start7Disabled
      = ((fetchStatus now s (.resp status (some data))).1.competitionState.isActive
          && !(fetchStatus now s (.resp status (some data))).1.competitionState.isEnded)
    ∧ (fetchStatus now s (.resp status (some data))).1.start14Disabled
      = ((fetchStatus now s (.resp status (some data))).1.competitionState.isActive
          && !(fetchStatus now s (.resp status (some data))).1.competitionState.isEnded)
    ∧ (fetchStatus now s (.resp status (some data))).1.start30Disabled
      = ((fetchStatus now s (.resp status (some data))).1.competitionState.isActive
          && !(fetchStatus now s (.resp status (some data))).1.competitionState.isEnded)
    ∧ (fetchStatus now s (.resp status (some data))).1.resetDisabled
      = (!(fetchStatus now s (.resp status (some data))).1.competitionState.isActive
          && !(fetchStatus now s (.resp status (some data))).1.competitionState.isEnded) := by
  unfold fetchStatus
  simp only [hauth, hok, hcomp, hsucc, Bool.not_true, Bool.false_eq_true, if_false, if_true,
    Bool.not_false, Bool.true_eq_false]
  split <;> simp [updateButtonStates]

/-- Witness for C3 at a concrete logged-in state applying an ended
competition. -/
theorem C3_button_state_invariant_witness :
    (fetchStatus 0 loggedInState
        (.resp 200 (some { success := true, competition := some endedCompetition }))).1.start7Disabled
      = ((fetchStatus 0 loggedInState
            (.resp 200 (some { success := true, competition := some endedCompetition }))).1.competitionState.isActive
          && !(fetchStatus 0 loggedInState
            (.resp 200 (some { success := true, competition := some endedCompetition }))).1.competitionState.isEnded)
    ∧ (fetchStatus 0 loggedInState
        (.resp 200 (some { success := true, competition := some endedCompetition }))).1.start14Disabled
      = ((fetchStatus 0 loggedInState
            (.resp 200 (some { success := true, competition := some endedCompetition }))).1.competitionState.isActive
          && !(fetchStatus 0 loggedInState
            (.resp 200 (some { success := true, competition := some endedCompetition }))).1.competitionState.isEnded)
    ∧ (fetchStatus 0 loggedInState
        (.resp 200 (some { success := true, competition := some endedCompetition }))).1.start30Disabled
      = ((fetchStatus 0 loggedInState
            (.resp 200 (some { success := true, competition := some endedCompetition }))).1.competitionState.isActive
          && !(fetchStatus 0 loggedInState
            (.resp 200 (some { success := true, competition := some endedCompetition }))).1.competitionState.isEnded)
    ∧ (fetchStatus 0 loggedInState
        (.resp 200 (some { success := true, competition := some endedCompetition }))).1.resetDisabled
      = (!(fetchStatus 0 loggedInState
            (.resp 200 (some { success := true, competition := some endedCompetition }))).1.competitionState.isActive
          && !(fetchStatus 0 loggedInState
            (.resp 200 (some { success := true, competition := some endedCompetition }))).1.competitionState.isEnded) :=
  C3_button_state_invariant 0 loggedInState 200
    { success := true, competition := some endedCompetition } endedCompetition
    rfl (by decide) rfl rfl

/-! ## Timer-subsystem invariant lemmas -/

/-- If every timer of kind `k` carries the id `h` and ids are distinct, at
most one timer of kind `k` is live. -/
theorem filter_kind_len_le_one (ts : List Timer) (k : TimerKind) (h : Nat) :
    (ts.map Timer.id).Nodup → (∀ t ∈ ts, (t.kind = k ↔ t.id = h)) →
    (ts.filter (fun t => t.kind == k)).length ≤ 1 := by
  induction ts with
  | nil => intro _ _; simp
  | cons t ts ih =>
    intro hnd hk
    rw [List.map_cons, List.nodup_cons] at hnd
    have hk' : ∀ u ∈ ts, (u.kind = k ↔ u.id = h) :=
      fun u hu => hk u (List.mem_cons_of_mem _ hu)
    by_cases hkt : t.kind = k
    · have hid : t.id = h := (hk t (List.mem_cons_self _ _)).mp hkt
      have hrest : ts.filter (fun u => u.kind == k) = [] := by
        refine List.filter_eq_nil_iff.mpr ?_
        intro u hu hbeq
        have hut : u.kind = k := by simpa using hbeq
        have huid : u.id = h := (hk' u hu).mp hut
        exact hnd.1 (by rw [hid, ← huid]; exact List.mem_map_of_mem Timer.id hu)
      simp [List.filter_cons, hkt, hrest]
    · have hf : (t.kind == k) = false := by simpa using hkt
      simpa [List.filter_cons, hf] using ih hnd.2 hk'

/-- Under the timer invariant's components, at most one timer of a kind is
live. -/
theorem timersOfKind_len_le_one (s : PanelState) (k : TimerKind) (o : Option Nat)
    (hnd : (s.timers.map Timer.id).Nodup) (hk : handleKind o k s.timers) :
    (timersOfKind k s).length ≤ 1 := by
  cases o with
  | none =>
    have he : timersOfKind k s = [] :=
      List.filter_eq_nil_iff.mpr (fun t ht hbeq => (hk t ht) (by simpa using hbeq))
    simp [he]
  | some h => exact filter_kind_len_le_one s.timers k h hnd hk

theorem optHandleLt_mono (o : Option Nat) (n m : Nat) (hnm : n ≤ m)
    (h : optHandleLt o n) : optHandleLt o m := by
  cases o with
  | none => trivial
  | some x => exact lt_of_lt_of_le h hnm

/-- JS `stopCountdown` preserves the timer invariant. -/
theorem timerInv_stopCountdown (s : PanelState) (hinv : timerInv s) :
    timerInv (stopCountdown s) := by
  obtain ⟨hnd, hb, hoc, hos, hkc, hks⟩ := hinv
  unfold stopCountdown
  cases h : s.countdownInterval with
  | none =>
    dsimp only
    exact ⟨hnd, hb, hoc, hos, hkc, hks⟩
  | some hd =>
    rw [h] at hkc
    dsimp only [clearIntervalTimer]
    refine ⟨?_, ?_, trivial, ?_, ?_, ?_⟩
    · exact hnd.sublist ((List.filter_sublist _).map Timer.id)
    · intro t ht
      exact hb t (List.mem_of_mem_filter ht)
    · exact hos
    · intro t ht hkind
      have hm := List.mem_filter.mp ht
      have : t.id ≠ hd := by simpa using hm.2
      exact this ((hkc t hm.1).mp hkind)
    · cases ho : s.statusRefreshInterval with
      | none =>
        rw [ho] at hks
        intro t ht
        exact hks t (List.mem_of_mem_filter ht)
      | some h2 =>
        rw [ho] at hks
        intro t ht
        exact hks t (List.mem_of_mem_filter ht)

/-- JS `stopStatusRefresh` preserves the timer invariant. -/
theorem timerInv_stopStatusRefresh (s : PanelState) (hinv : timerInv s) :
    timerInv (stopStatusRefresh s) := by
  obtain ⟨hnd, hb, hoc, hos, hkc, hks⟩ := hinv
  unfold stopStatusRefresh
  cases h : s.statusRefreshInterval with
  | none =>
    dsimp only
    exact ⟨hnd, hb, hoc, hos, hkc, hks⟩
  | some hd =>
    rw [h] at hks
    dsimp only [clearIntervalTimer]
    refine ⟨?_, ?_, ?_, trivial, ?_, ?_⟩
    · exact hnd.sublist ((List.filter_sublist _).map Timer.id)
    · intro t ht
      exact hb t (List.mem_of_mem_filter ht)
    · exact hoc
    · cases ho : s.countdownInterval with
      | none =>
        rw [ho] at hkc
        intro t ht
        exact hkc t (List.mem_of_mem_filter ht)
      | some h2 =>
        rw [ho] at hkc
        intro t ht
        exact hkc t (List.mem_of_mem_filter ht)
    · intro t ht hkind
      have hm := List.mem_filter.mp ht
      have : t.id ≠ hd := by simpa using hm.2
      exact this ((hks t hm.1).mp hkind)

/-- With the countdown handle already cleared, `updateCountdown` leaves the
timer subsystem untouched. -/
theorem updateCountdown_none_timers (now : Int) (s : PanelState)
    (h : s.countdownInterval = none) :
    (updateCountdown now s).1.timers = s.timers
    ∧ (updateCountdown now s).1.nextTimerId = s.nextTimerId
    ∧ (updateCountdown now s).1.countdownInterval = none
    ∧ (updateCountdown now s).1.statusRefreshInterval = s.statusRefreshInterval := by
  unfold updateCountdown
  dsimp only
  split
  · exact ⟨rfl, rfl, h, rfl⟩
  · split
    · refine ⟨?_, ?_, ?_, ?_⟩ <;> simp [stopCountdown, h]
    · split <;> exact ⟨rfl, rfl, h, rfl⟩

/-- The timer invariant only depends on the timer subsystem. -/
theorem timerInv_congr (s s' : PanelState)
    (ht : s'.timers = s.timers) (hn : s'.nextTimerId = s.nextTimerId)
    (hc : s'.countdownInterval = s.countdownInterval)
    (hr : s'.statusRefreshInterval = s.statusRefreshInterval)
    (h : timerInv s) : timerInv s' := by
  unfold timerInv
  rw [ht, hn, hc, hr]
  exact h

/-- Registering a fresh timer of kind `k` on a state with no live timer of
kind `k` re-establishes the invariant's components, with exactly that one
timer of kind `k` live.  `oOther` is the handle of the other kind `kOther`,
left unchanged. -/
theorem register_fresh_inv (ts : List Timer) (n : Nat) (k kOther : TimerKind)
    (p now : Int) (oOther : Option Nat)
    (hkk : kOther ≠ k)
    (hnd : (ts.map Timer.id).Nodup)
    (hb : ∀ t ∈ ts, t.id < n)
    (hoo : optHandleLt oOther n)
    (hnone : ∀ t ∈ ts, t.kind ≠ k)
    (hko : handleKind oOther kOther ts) :
    ((ts ++ [Timer.mk n k p now]).map Timer.id).Nodup
    ∧ (∀ t ∈ ts ++ [Timer.mk n k p now], t.id < n + 1)
    ∧ optHandleLt (some n) (n + 1)
    ∧ optHandleLt oOther (n + 1)
    ∧ handleKind (some n) k (ts ++ [Timer.mk n k p now])
    ∧ handleKind oOther kOther (ts ++ [Timer.mk n k p now])
    ∧ (ts ++ [Timer.mk n k p now]).filter (fun t => t.kind == k) = [Timer.mk n k p now] := by
  have hnotmem : n ∉ ts.map Timer.id := by
    intro hmem
    obtain ⟨t, htm, hid⟩ := List.mem_map.mp hmem
    exact absurd hid (Nat.ne_of_lt (hb t htm))
  refine ⟨?_, ?_, Nat.lt_succ_self n, optHandleLt_mono _ _ _ (Nat.le_succ n) hoo, ?_, ?_, ?_⟩
  · rw [List.map_append, List.nodup_append]
    exact ⟨hnd, List.nodup_singleton _, by simpa [List.disjoint_singleton] using hnotmem⟩
  · intro t ht
    rcases List.mem_append.mp ht with hl | hr
    · exact Nat.lt_succ_of_lt (hb t hl)
    · simp at hr
      rw [hr]
      exact Nat.lt_succ_self n
  · intro t ht
    rcases List.mem_append.mp ht with hl | hr
    · constructor
      · intro hkind
        exact absurd hkind (hnone t hl)
      · intro hid
        exact absurd hid (Nat.ne_of_lt (hb t hl))
    · simp at hr
      rw [hr]
      simp
  · cases ho : oOther with
    | none =>
      rw [ho] at hko
      intro t ht
      rcases List.mem_append.mp ht with hl | hr
      · exact hko t hl
      · simp at hr
        rw [hr]
        exact fun he => hkk he.symm
    | some h2 =>
      rw [ho] at hko
      have hlt : h2 < n := by rw [ho] at hoo; exact hoo
      intro t ht
      rcases List.mem_append.mp ht with hl | hr
      · exact hko t hl
      · simp at hr
        rw [hr]
        constructor
        · intro hkind
          exact absurd hkind.symm hkk
        · intro hid
          exact absurd hid.symm (Nat.ne_of_lt hlt)
  · rw [List.filter_append]
    have h1 : ts.filter (fun t => t.kind == k) = [] :=
      List.filter_eq_nil_iff.mpr (fun t ht hbeq => (hnone t ht) (by simpa using hbeq))
    rw [h1]
    simp

/-- JS `startStatusRefresh` re-establishes the invariant and leaves exactly one
status-poll timer live: the freshly registered 30-second one. -/
theorem startStatusRefresh_spec (now : Int) (s : PanelState) (hinv : timerInv s) :
    timerInv (startStatusRefresh now s)
    ∧ timersOfKind TimerKind.statusRefresh (startStatusRefresh now s)
        = [Timer.mk s.nextTimerId TimerKind.statusRefresh STATUS_REFRESH_INTERVAL now]
    ∧ (startStatusRefresh now s).statusRefreshInterval = some s.nextTimerId := by
  have hnr := stopStatusRefresh_no_refresh s hinv.2.2.2.2.2
  obtain ⟨hnd1, hb1, hoc1, hos1, hkc1, hks1⟩ := timerInv_stopStatusRefresh s hinv
  have hnext : (stopStatusRefresh s).nextTimerId = s.nextTimerId :=
    stopStatusRefresh_nextTimerId s
  rw [hnext] at hb1 hoc1
  have hreg := register_fresh_inv (stopStatusRefresh s).timers s.nextTimerId
    TimerKind.statusRefresh TimerKind.countdown STATUS_REFRESH_INTERVAL now
    (stopStatusRefresh s).countdownInterval (by decide) hnd1 hb1 hoc1 hnr hkc1
  unfold startStatusRefresh setIntervalTimer
  dsimp only
  rw [hnext]
  exact ⟨⟨hreg.1, hreg.2.1, hreg.2.2.2.1, hreg.2.2.1, hreg.2.2.2.2.2.1, hreg.2.2.2.2.1⟩,
    hreg.2.2.2.2.2.2, rfl⟩

/-- JS `startCountdown` re-establishes the invariant and leaves exactly one
countdown timer live: the freshly registered 1-second one. -/
theorem startCountdown_spec (now : Int) (s : PanelState) (hinv : timerInv s) :
    timerInv (startCountdown now s).1
    ∧ timersOfKind TimerKind.countdown (startCountdown now s).1
        = [Timer.mk s.nextTimerId TimerKind.countdown TIMER_UPDATE_INTERVAL now] := by
  have hnc1 := stopCountdown_no_countdown s hinv.2.2.2.2.1
  have hinv1 := timerInv_stopCountdown s hinv
  have h1none : (stopCountdown s).countdownInterval = none := stopCountdown_countdownInterval s
  obtain ⟨ht2, hn2, hc2, hr2⟩ := updateCountdown_none_timers now (stopCountdown s) h1none
  have hinv2 : timerInv (updateCountdown now (stopCountdown s)).1 :=
    timerInv_congr _ _ ht2 hn2 (by rw [hc2, h1none]) hr2 hinv1
  obtain ⟨hnd2, hb2, hoc2, hos2, hkc2, hks2⟩ := hinv2
  have hnc2 : ∀ t ∈ (updateCountdown now (stopCountdown s)).1.timers,
      t.kind ≠ TimerKind.countdown := by
    rw [ht2]
    exact hnc1
  have hnext2 : (updateCountdown now (stopCountdown s)).1.nextTimerId = s.nextTimerId := by
    rw [hn2, stopCountdown_nextTimerId]
  rw [hnext2] at hb2 hos2
  have hreg := register_fresh_inv (updateCountdown now (stopCountdown s)).1.timers s.nextTimerId
    TimerKind.countdown TimerKind.statusRefresh TIMER_UPDATE_INTERVAL now
    (updateCountdown now (stopCountdown s)).1.statusRefreshInterval
    (by decide) hnd2 hb2 hos2 hnc2 hks2
  unfold startCountdown setIntervalTimer
  dsimp only
  rw [hnext2]
  exact ⟨⟨hreg.1, hreg.2.1, hreg.2.2.1, hreg.2.2.2.1, hreg.2.2.2.2.1, hreg.2.2.2.2.2.1⟩,
    hreg.2.2.2.2.2.2⟩

/-- A state with no live timers and cleared handles satisfies the timer
invariant. -/
theorem timerInv_of_no_timers (s : PanelState) (h1 : s.timers = [])
    (h2 : s.countdownInterval = none) (h3 : s.statusRefreshInterval = none) :
    timerInv s := by
  unfold timerInv
  rw [h1, h2, h3]
  refine ⟨by simp, ?_, trivial, trivial, ?_, ?_⟩ <;>
    exact fun t ht => absurd ht (List.not_mem_nil t)

/-- C9: under the timer-table invariant, at most one status-poll timer and
at most one countdown timer are live; starting the countdown or the poller
first stops any previous instance, so afterwards exactly one timer of that
kind is live (and the invariant is preserved); after a stop the handle is
null and no timer of that kind remains. -/
theorem C9_single_timer_instance (now : Int) (s : PanelState) (hinv : timerInv s) :
    (timersOfKind TimerKind.countdown s).length ≤ 1
    ∧ (timersOfKind TimerKind.statusRefresh s).length ≤ 1
    ∧ timerInv (startCountdown now s).1
    ∧ (timersOfKind TimerKind.countdown (startCountdown now s).1).length = 1
    ∧ timerInv (startStatusRefresh now s)
    ∧ (timersOfKind TimerKind.statusRefresh (startStatusRefresh now s)).length = 1
    ∧ timerInv (stopCountdown s)
    ∧ (stopCountdown s).countdownInterval = none
    ∧ timersOfKind TimerKind.countdown (stopCountdown s) = []
    ∧ timerInv (stopStatusRefresh s)
    ∧ (stopStatusRefresh s).statusRefreshInterval = none
    ∧ timersOfKind TimerKind.statusRefresh (stopStatusRefresh s) = [] := by
  refine ⟨timersOfKind_len_le_one s _ _ hinv.1 hinv.2.2.2.2.1,
    timersOfKind_len_le_one s _ _ hinv.1 hinv.2.2.2.2.2,
    (startCountdown_spec now s hinv).1, ?_,
    (startStatusRefresh_spec now s hinv).1, ?_,
    timerInv_stopCountdown s hinv, stopCountdown_countdownInterval s, ?_,
    timerInv_stopStatusRefresh s hinv, stopStatusRefresh_statusRefreshInterval s, ?_⟩
  · rw [(startCountdown_spec now s hinv).2]
    rfl
  · rw [(startStatusRefresh_spec now s hinv).2.1]
    rfl
  · exact List.filter_eq_nil_iff.mpr
      (fun t ht hbeq => (stopCountdown_no_countdown s hinv.2.2.2.2.1 t ht) (by simpa using hbeq))
  · exact List.filter_eq_nil_iff.mpr
      (fun t ht hbeq => (stopStatusRefresh_no_refresh s hinv.2.2.2.2.2 t ht) (by simpa using hbeq))

/-- Witness for C9 at a concrete well-formed state. -/
theorem C9_single_timer_instance_witness :
    (timersOfKind TimerKind.countdown activeState).length ≤ 1
    ∧ (timersOfKind TimerKind.statusRefresh activeState).length ≤ 1
    ∧ timerInv (startCountdown 0 activeState).1
    ∧ (timersOfKind TimerKind.countdown (startCountdown 0 activeState).1).length = 1
    ∧ timerInv (startStatusRefresh 0 activeState)
    ∧ (timersOfKind TimerKind.statusRefresh (startStatusRefresh 0 activeState)).length = 1
    ∧ timerInv (stopCountdown activeState)
    ∧ (stopCountdown activeState).countdownInterval = none
    ∧ timersOfKind TimerKind.countdown (stopCountdown activeState) = []
    ∧ timerInv (stopStatusRefresh activeState)
    ∧ (stopStatusRefresh activeState).statusRefreshInterval = none
    ∧ timersOfKind TimerKind.statusRefresh (stopStatusRefresh activeState) = [] :=
  C9_single_timer_instance 0 activeState (timerInv_of_no_timers activeState rfl rfl rfl)

@[simp]
theorem stopStatusRefresh_loginHidden (s : PanelState) :
    (stopStatusRefresh s).loginHidden = s.loginHidden := by
  unfold stopStatusRefresh
  cases h : s.statusRefreshInterval <;> simp [clearIntervalTimer]

@[simp]
theorem stopStatusRefresh_controlsHidden (s : PanelState) :
    (stopStatusRefresh s).controlsHidden = s.controlsHidden := by
  unfold stopStatusRefresh
  cases h : s.statusRefreshInterval <;> simp [clearIntervalTimer]

@[simp]
theorem stopStatusRefresh_loginErrorShown (s : PanelState) :
    (stopStatusRefresh s).loginErrorShown = s.loginErrorShown := by
  unfold stopStatusRefresh
  cases h : s.statusRefreshInterval <;> simp [clearIntervalTimer]

@[simp]
theorem startStatusRefresh_isAuthenticated (now : Int) (s : PanelState) :
    (startStatusRefresh now s).isAuthenticated = s.isAuthenticated := by
  simp [startStatusRefresh, setIntervalTimer]

@[simp]
theorem startStatusRefresh_adminApiKey (now : Int) (s : PanelState) :
    (startStatusRefresh now s).adminApiKey = s.adminApiKey := by
  simp [startStatusRefresh, setIntervalTimer]

@[simp]
theorem startStatusRefresh_sessionKey (now : Int) (s : PanelState) :
    (startStatusRefresh now s).sessionKey = s.sessionKey := by
  simp [startStatusRefresh, setIntervalTimer]

@[simp]
theorem startStatusRefresh_loginHidden (now : Int) (s : PanelState) :
    (startStatusRefresh now s).loginHidden = s.loginHidden := by
  simp [startStatusRefresh, setIntervalTimer]

@[simp]
theorem startStatusRefresh_controlsHidden (now : Int) (s : PanelState) :
    (startStatusRefresh now s).controlsHidden = s.controlsHidden := by
  simp [startStatusRefresh, setIntervalTimer]

@[simp]
theorem startStatusRefresh_loginErrorShown (now : Int) (s : PanelState) :
    (startStatusRefresh now s).loginErrorShown = s.loginErrorShown := by
  simp [startStatusRefresh, setIntervalTimer]

/-- After `startStatusRefresh`, the poller handle points at a live
30-second timer created now, and every live status-poll timer first fires a
full period after `now`. -/
theorem startStatusRefresh_poller_timer (now : Int) (s : PanelState) (hinv : timerInv s) :
    ∃ h, (startStatusRefresh now s).statusRefreshInterval = some h
      ∧ Timer.mk h TimerKind.statusRefresh STATUS_REFRESH_INTERVAL now
          ∈ (startStatusRefresh now s).timers
      ∧ ∀ t ∈ (startStatusRefresh now s).timers,
          t.kind = TimerKind.statusRefresh → t.firstFire = now + STATUS_REFRESH_INTERVAL := by
  obtain ⟨hinv', htok, hhandle⟩ := startStatusRefresh_spec now s hinv
  refine ⟨s.nextTimerId, hhandle, ?_, ?_⟩
  · have hmem : Timer.mk s.nextTimerId TimerKind.statusRefresh STATUS_REFRESH_INTERVAL now
        ∈ timersOfKind TimerKind.statusRefresh (startStatusRefresh now s) := by
      rw [htok]
      exact List.mem_singleton.mpr rfl
    exact List.mem_of_mem_filter hmem
  · intro t ht hkind
    have htf : t ∈ timersOfKind TimerKind.statusRefresh (startStatusRefresh now s) :=
      List.mem_filter.mpr ⟨ht, by simp [hkind]⟩
    rw [htok] at htf
    rw [List.mem_singleton.mp htf]
    rfl

/-- C7: a credential accepted by the auth check (2xx) transitions the panel
to `LoggedIn` — `isAuthenticated` true, credential persisted to
sessionStorage, admin controls shown — and issues exactly one immediate
status fetch (the request list is the auth-check GET followed by exactly one
status GET).  The poller is started with a 30-second period and its first
callback fires only at `now + STATUS_REFRESH_INTERVAL`, so it contributes no
additional fetch before the 30-second interval elapses. -/
theorem C7_login_success (now : Int) (s : PanelState) (status : Nat)
    (hpw : ¬ trimString s.passwordValue = "")
    (hok : respOk status = true)
    (hinv : timerInv s) :
    (handleLogin now s (.resp status)).1.isAuthenticated = true
    ∧ (handleLogin now s (.resp status)).1.adminApiKey = trimString s.passwordValue
    ∧ (handleLogin now s (.resp status)).1.sessionKey = some (trimString s.passwordValue)
    ∧ (handleLogin now s (.resp status)).1.loginHidden = true
    ∧ (handleLogin now s (.resp status)).1.controlsHidden = false
    ∧ (handleLogin now s (.resp status)).1.loginErrorShown = false
    ∧ (handleLogin now s (.resp status)).2 = [Request.getStatus, Request.getStatus]
    ∧ (∃ h, (handleLogin now s (.resp status)).1.statusRefreshInterval = some h
        ∧ Timer.mk h TimerKind.statusRefresh STATUS_REFRESH_INTERVAL now
            ∈ (handleLogin now s (.resp status)).1.timers
        ∧ ∀ t ∈ (handleLogin now s (.resp status)).1.timers,
            t.kind = TimerKind.statusRefresh →
              t.firstFire = now + STATUS_REFRESH_INTERVAL) := by
  unfold handleLogin
  dsimp only
  rw [if_neg hpw, if_pos hok]
  have hinvMid : timerInv (showAdminControls
      { { s with adminApiKey := trimString s.passwordValue } with
          isAuthenticated := true,
          sessionKey := some (trimString s.passwordValue) }) :=
    timerInv_congr _ s rfl rfl rfl rfl hinv
  refine ⟨by simp [showAdminControls], by simp [showAdminControls], by simp [showAdminControls],
    by simp [showAdminControls], by simp [showAdminControls], by simp [showAdminControls],
    by simp [fetchStatusIssue, showAdminControls],
    startStatusRefresh_poller_timer now _ hinvMid⟩

/-- Witness for C7 at the concrete login attempt and status 200. -/
theorem C7_login_success_witness :
    (handleLogin 5 loginAttemptState (.resp 200)).1.isAuthenticated = true
    ∧ (handleLogin 5 loginAttemptState (.resp 200)).1.adminApiKey
        = trimString loginAttemptState.passwordValue
    ∧ (handleLogin 5 loginAttemptState (.resp 200)).1.sessionKey
        = some (trimString loginAttemptState.passwordValue)
    ∧ (handleLogin 5 loginAttemptState (.resp 200)).1.loginHidden = true
    ∧ (handleLogin 5 loginAttemptState (.resp 200)).1.controlsHidden = false
    ∧ (handleLogin 5 loginAttemptState (.resp 200)).1.loginErrorShown = false
    ∧ (handleLogin 5 loginAttemptState (.resp 200)).2 = [Request.getStatus, Request.getStatus]
    ∧ (∃ h, (handleLogin 5 loginAttemptState (.resp 200)).1.statusRefreshInterval = some h
        ∧ Timer.mk h TimerKind.statusRefresh STATUS_REFRESH_INTERVAL 5
            ∈ (handleLogin 5 loginAttemptState (.resp 200)).1.timers
        ∧ ∀ t ∈ (handleLogin 5 loginAttemptState (.resp 200)).1.timers,
            t.kind = TimerKind.statusRefresh →
              t.firstFire = 5 + STATUS_REFRESH_INTERVAL) :=
  C7_login_success 5 loginAttemptState 200 (by decide) (by decide)
    (timerInv_of_no_timers loginAttemptState rfl rfl rfl)

end AdminJs
